import Mathlib

/-!
Verification of the zmq kernel/channel core of this repository.

The data model and operations below are shallow embeddings of
`src/IPython/zmq/kernelmanager.py` and `src/IPython/zmq/ipkernel.py`
(plus `_showtraceback` from `src/IPython/zmq/zmqshell.py`).  Python dicts
holding message content are association lists, Python ints are `Nat`,
fallible Python code returns `Except`.  The file `session.py` is imported
by the sources but is not part of this repository snapshot, so the
`Session` / envelope constructor is modelled from the spec (see the
doc comments on `Session`).  Threads are modelled by making each
channel a value and each socket a FIFO list; callbacks scheduled on a
channel event loop are reified as data so that the split between the
calling thread (which only schedules) and the loop thread (which runs
the callback) is explicit.
-/

set_option maxHeartbeats 1000000
set_option linter.unusedVariables false

namespace IPyZmq

/-- Python values appearing in message content dictionaries. -/
inductive Val where
  | str : String → Val
  | bool : Bool → Val
  | num : Nat → Val
  | pynone : Val
  | vdict : List (String × Val) → Val

/-- A message content dictionary: association list from field name to value. -/
abbrev Content := List (String × Val)

/-- Dict lookup, `c[k]`; `Option.none` models a KeyError. -/
def getField : Content → String → Option Val
  | [], _ => Option.none
  | (k0, v0) :: rest, k => if k0 = k then some v0 else getField rest k

/-- Dict assignment `c[k] = v`: replace the binding if present, else append. -/
def setField : Content → String → Val → Content
  | [], k, v => [(k, v)]
  | (k0, v0) :: rest, k, v =>
    if k0 = k then (k, v) :: rest else (k0, v0) :: setField rest k v

/-- Python `c.update(upd)`: assign every binding of `upd` into `c`. -/
def updateContent (c upd : Content) : Content :=
  List.foldl (fun acc kv => setField acc kv.1 kv.2) c upd

/-- Field-name and message-type string constants used by the sources. -/
def kCode : String := "code"
def kSilent : String := "silent"
def kStatus : String := "status"
def kPayload : String := "payload"
def kPromptNumber : String := "prompt_number"
def kNextPrompt : String := "next_prompt"
def kPromptString : String := "prompt_string"
def kInputSep : String := "input_sep"
def kText : String := "text"
def kLine : String := "line"
def kCursorPos : String := "cursor_pos"
def kBlock : String := "block"
def kOname : String := "oname"
def kIndex : String := "index"
def kRaw : String := "raw"
def kOutput : String := "output"
def kMatches : String := "matches"
def kHistory : String := "history"
def kValue : String := "value"
def kPrompt : String := "prompt"
def kDocstring : String := "docstring"
def kTraceback : String := "traceback"
def kEname : String := "ename"
def kEvalue : String := "evalue"
def kOk : String := "ok"
def kError : String := "error"
def kAborted : String := "aborted"
def kIpython : String := "ipython"
def kExecuteRequest : String := "execute_request"
def kExecuteReply : String := "execute_reply"
def kCompleteRequest : String := "complete_request"
def kCompleteReply : String := "complete_reply"
def kObjectInfoRequest : String := "object_info_request"
def kObjectInfoReply : String := "object_info_reply"
def kPromptRequest : String := "prompt_request"
def kPromptReply : String := "prompt_reply"
def kHistoryRequest : String := "history_request"
def kHistoryReply : String := "history_reply"
def kInputRequest : String := "input_request"
def kInputReply : String := "input_reply"
def kPyin : String := "pyin"
def kPyout : String := "pyout"
def kReplySuffix : String := "_reply"
def LOCALHOST : String := "127.0.0.1"

/-- One protocol message envelope.  The sources keep the fresh id under
`msg.header.msg_id` and the parent link under `msg.parent_header`; here
the header is flattened: `msg_id` and `session` are the header fields
and `parent` holds the `msg_id` of the parent header (`Option.none`
when no parent was supplied, matching the empty `parent_header`). -/
structure Msg where
  msg_id : Nat
  msg_type : String
  session : Nat
  parent : Option Nat
  content : Content

/-- Modelled from the spec: `session.py` is imported by the sources but
missing from this repository snapshot.  Spec section 3 describes the
Session as a process-wide identity attached to every outgoing envelope
and requires every id to be globally unique per sender; it is modelled
as the session token plus a counter supplying fresh ids. -/
structure Session where
  session : Nat
  next_id : Nat

/-- Modelled from the spec: `Session.msg` (spec section 4.1) constructs an
envelope with `(type, content, parent)`, generating a fresh unique id and
attaching the current session token; the parent field of the new envelope
references the id of the given parent message, and is null when no parent
is given (a request, not a reply). -/
def Session.msg (s : Session) (msg_type : String) (content : Content)
    (parent : Option Msg) : Msg × Session :=
  (⟨s.next_id, msg_type, s.session, Option.map Msg.msg_id parent, content⟩,
   ⟨s.session, s.next_id + 1⟩)

/-! ## ZmqSocketChannel: event-loop io-interest state

From `kernelmanager.ZmqSocketChannel` (lines 98-128).  `add_io_state` and
`drop_io_state` never touch `iostate` on the calling thread: they schedule
a closure through `IOLoop.add_callback`; the closure, run later on the
loop thread, tests and updates the bitmask and calls `update_handler`.
The scheduled closures are reified as `IOReq` values. -/

def POLLIN : Nat := 1
def POLLOUT : Nat := 2
def POLLERR : Nat := 4

/-- A callback scheduled on the channel event loop by add_io_state or
drop_io_state. -/
inductive IOReq where
  | addState : Nat → IOReq
  | dropState : Nat → IOReq

/-- The per-channel state touched by the io-interest machinery: the bitmask
and the queue of scheduled, not yet executed, loop callbacks. -/
structure ChannelLoopState where
  iostate : Nat
  scheduled : List IOReq

/-- Body of the closure scheduled by `add_io_state` (lines 108-111): if no
bit of `state` is set yet, set them and re-register the handler.  Returns
the new bitmask and whether `update_handler` was called. -/
def add_io_state_callback (iostate state : Nat) : Nat × Bool :=
  if iostate &&& state = 0 then (iostate ||| state, true) else (iostate, false)

/-- Body of the closure scheduled by `drop_io_state` (lines 124-127): if a
bit of `state` is set, clear the bits of `state` and re-register.  The
Python expression `iostate & ~state` on nonnegative ints equals
`iostate ^^^ (iostate &&& state)`. -/
def drop_io_state_callback (iostate state : Nat) : Nat × Bool :=
  if iostate &&& state = 0 then (iostate, false)
  else (iostate ^^^ (iostate &&& state), true)

/-- `ZmqSocketChannel.add_io_state`: only schedules the callback; the
bitmask is untouched by the calling thread. -/
def ZmqSocketChannel.add_io_state (ch : ChannelLoopState) (state : Nat) :
    ChannelLoopState :=
  ⟨ch.iostate, ch.scheduled ++ [IOReq.addState state]⟩

/-- `ZmqSocketChannel.drop_io_state`: only schedules the callback. -/
def ZmqSocketChannel.drop_io_state (ch : ChannelLoopState) (state : Nat) :
    ChannelLoopState :=
  ⟨ch.iostate, ch.scheduled ++ [IOReq.dropState state]⟩

/-- The event loop executing one scheduled io-interest callback. -/
def runIOReq (iostate : Nat) : IOReq → Nat × Bool
  | IOReq.addState st => add_io_state_callback iostate st
  | IOReq.dropState st => drop_io_state_callback iostate st

/-! ## XReqSocketChannel (Command Channel), client side

From `kernelmanager.XReqSocketChannel` (lines 131-291). -/

structure XReqSocketChannel where
  session : Session
  command_queue : List Msg
  loop : ChannelLoopState

/-- `XReqSocketChannel._queue_request`: put the message on the FIFO and
request writable-interest. -/
def XReqSocketChannel.queue_request (ch : XReqSocketChannel) (msg : Msg) :
    XReqSocketChannel :=
  ⟨ch.session, ch.command_queue ++ [msg],
   ZmqSocketChannel.add_io_state ch.loop POLLOUT⟩

/-- `XReqSocketChannel.execute` (lines 166-185): build the request, queue
it, return its msg_id (the call does not block). -/
def XReqSocketChannel.execute (ch : XReqSocketChannel) (code : String)
    (silent : Bool) : Nat × XReqSocketChannel :=
  let content : Content := [(kCode, Val.str code), (kSilent, Val.bool silent)]
  let ms := ch.session.msg kExecuteRequest content Option.none
  (ms.1.msg_id, XReqSocketChannel.queue_request ⟨ms.2, ch.command_queue, ch.loop⟩ ms.1)

/-- `XReqSocketChannel.complete` (lines 187-210). -/
def XReqSocketChannel.complete (ch : XReqSocketChannel) (text line : String)
    (cursor_pos : Nat) (block : Val) : Nat × XReqSocketChannel :=
  let content : Content := [(kText, Val.str text), (kLine, Val.str line),
    (kBlock, block), (kCursorPos, Val.num cursor_pos)]
  let ms := ch.session.msg kCompleteRequest content Option.none
  (ms.1.msg_id, XReqSocketChannel.queue_request ⟨ms.2, ch.command_queue, ch.loop⟩ ms.1)

/-- `XReqSocketChannel.object_info` (lines 212-227). -/
def XReqSocketChannel.object_info (ch : XReqSocketChannel) (oname : String) :
    Nat × XReqSocketChannel :=
  let content : Content := [(kOname, Val.str oname)]
  let ms := ch.session.msg kObjectInfoRequest content Option.none
  (ms.1.msg_id, XReqSocketChannel.queue_request ⟨ms.2, ch.command_queue, ch.loop⟩ ms.1)

/-- `XReqSocketChannel.history` (lines 229-250); `index` may be the Python
None, so it is passed as a `Val`. -/
def XReqSocketChannel.history (ch : XReqSocketChannel) (index : Val)
    (raw output : Bool) : Nat × XReqSocketChannel :=
  let content : Content := [(kIndex, index), (kRaw, Val.bool raw),
    (kOutput, Val.bool output)]
  let ms := ch.session.msg kHistoryRequest content Option.none
  (ms.1.msg_id, XReqSocketChannel.queue_request ⟨ms.2, ch.command_queue, ch.loop⟩ ms.1)

/-- `XReqSocketChannel.prompt` (lines 252-261); no content argument is
passed, modelled as the empty dict. -/
def XReqSocketChannel.prompt (ch : XReqSocketChannel) : Nat × XReqSocketChannel :=
  let ms := ch.session.msg kPromptRequest [] Option.none
  (ms.1.msg_id, XReqSocketChannel.queue_request ⟨ms.2, ch.command_queue, ch.loop⟩ ms.1)

/-- The five Command Channel request methods, as one sum so that a claim
about every method is one quantified statement. -/
inductive ReqMethod where
  | execute : String → Bool → ReqMethod
  | complete : String → String → Nat → Val → ReqMethod
  | object_info : String → ReqMethod
  | history : Val → Bool → Bool → ReqMethod
  | prompt : ReqMethod

def XReqSocketChannel.sendRequest (ch : XReqSocketChannel) :
    ReqMethod → Nat × XReqSocketChannel
  | ReqMethod.execute code silent => ch.execute code silent
  | ReqMethod.complete text line cursor_pos block => ch.complete text line cursor_pos block
  | ReqMethod.object_info oname => ch.object_info oname
  | ReqMethod.history index raw output => ch.history index raw output
  | ReqMethod.prompt => ch.prompt

/-! ## RepSocketChannel (Input Channel), client side

From `kernelmanager.RepSocketChannel` (lines 379-447). -/

structure RepSocketChannel where
  session : Session
  msg_queue : List Msg
  loop : ChannelLoopState

/-- `RepSocketChannel._queue_reply`: put the message on the FIFO and
request writable-interest. -/
def RepSocketChannel.queue_reply (ch : RepSocketChannel) (msg : Msg) :
    RepSocketChannel :=
  ⟨ch.session, ch.msg_queue ++ [msg],
   ZmqSocketChannel.add_io_state ch.loop POLLOUT⟩

/-- `RepSocketChannel.input` (lines 413-417): build an input_reply holding
the given string and queue it.  Note the source calls
`self.session.msg(input_reply, content)` with no parent argument. -/
def RepSocketChannel.input (ch : RepSocketChannel) (string : String) :
    RepSocketChannel :=
  let content : Content := [(kValue, Val.str string)]
  let ms := ch.session.msg kInputReply content Option.none
  RepSocketChannel.queue_reply ⟨ms.2, ch.msg_queue, ch.loop⟩ ms.1

/-! ## SubSocketChannel (Broadcast Channel): flush

From `kernelmanager.SubSocketChannel.flush` (lines 327-349) and `_flush`
(lines 374-376).  Real time is discretized into ticks of 0.01 seconds, the
granularity of the sleep inside the busy-wait; `timeout` is given in
ticks (the default `timeout=1.0` is 100 ticks).  The channel event loop
runs concurrently with the flushing thread: it is modelled as a FIFO of
loop events (received messages in arrival order, then scheduled
callbacks), of which it processes one per tick while the flushing thread
sleeps. -/

/-- One item the channel event loop will process: a received broadcast
message (delivered to call_handlers) or a scheduled `_flush` callback. -/
inductive LoopEvent where
  | recv : Msg → LoopEvent
  | callback : LoopEvent

/-- State of one flush busy-wait: the loop event queue, the messages
delivered to call_handlers so far, the `_flushed` flag and the clock. -/
structure FlushSt where
  queue : List LoopEvent
  delivered : List Msg
  flushed : Bool
  now : Nat

/-- The busy-wait `while not self._flushed and time.time() < stop_time:
time.sleep(0.01)`.  `rem` is the number of ticks until `stop_time`
(so `rem = 0` is exactly `stop_time <= now`); each iteration sleeps one
tick, during which the loop thread processes one queued event. -/
def busyWait : Nat → FlushSt → FlushSt
  | 0, st => st
  | rem + 1, st =>
    if st.flushed then st
    else
      match st.queue with
      | [] => busyWait rem ⟨[], st.delivered, st.flushed, st.now + 1⟩
      | LoopEvent.recv m :: rest =>
        busyWait rem ⟨rest, st.delivered ++ [m], st.flushed, st.now + 1⟩
      | LoopEvent.callback :: rest =>
        busyWait rem ⟨rest, st.delivered, true, st.now + 1⟩

/-- `SubSocketChannel.flush(timeout)`: two passes over the same deadline
`stop_time = call time + timeout`; each pass clears `_flushed`, schedules
the `_flush` callback behind everything already queued on the loop, and
busy-waits.  `pending` holds the messages that had arrived before the
call, `delivered` those already handed to call_handlers earlier. -/
def SubSocketChannel.flush (pending delivered : List Msg) (timeout : Nat) :
    FlushSt :=
  let stop_time := 0 + timeout
  let p1 := busyWait (stop_time - 0)
    ⟨List.map LoopEvent.recv pending ++ [LoopEvent.callback], delivered, false, 0⟩
  busyWait (stop_time - p1.now)
    ⟨p1.queue ++ [LoopEvent.callback], p1.delivered, false, p1.now⟩

/-! ## Kernel (execution-process side)

From `ipkernel.Kernel` (lines 40-331) plus
`zmqshell.ZMQInteractiveShell._showtraceback` (lines 363-384).  The
interactive shell itself is command-specific business logic outside the
core (spec section 1), so its operations are opaque function fields;
`runlines` returns the exception triple `(ename, evalue, traceback)` that
the shell error path feeds `_showtraceback`, or none on success. -/

/-- Python-level exceptions escaping a handler. -/
inductive PyErr where
  | keyError : String → PyErr
  | typeError : PyErr
  deriving DecidableEq, Repr

/-- The opaque interactive shell the kernel drives. -/
structure Shell where
  runlines : Val → Option (String × String × Val)
  payload : Val
  prompt_count : Nat
  peek_next_prompt : String
  input_sep : String
  shell_complete : Val → Val → Nat → Val
  get_history : Val → Val → Val → Val
  object_info_doc : List String → String

/-- Kernel state: session, shell, queued inbound requests on the reply
socket, and the messages sent so far on the reply and pub sockets
(identity frames are elided). -/
structure Kernel where
  session : Session
  shell : Shell
  inbound : List Msg
  reply_out : List Msg
  pub_out : List Msg

/-- `zmqshell.ZMQInteractiveShell._showtraceback`: the error reply content
stored into `shell._reply_content` when execution raises (the pyerr
publication it also performs is elided, being out of every claim). -/
def showtraceback (ename evalue : String) (tb : Val) : Content :=
  [(kStatus, Val.str kError), (kTraceback, tb),
   (kEname, Val.str ename), (kEvalue, Val.str evalue)]

/-- Python `str.split(sep)` on a character list. -/
def splitOnChar (sep : Char) : List Char → List (List Char)
  | [] => [[]]
  | c :: rest =>
    let r := splitOnChar sep rest
    if c = sep then [] :: r
    else
      match r with
      | [] => [[c]]
      | g :: gs => (c :: g) :: gs

/-- Python `s.split(sep)` for a single-character separator. -/
def pySplit (s : String) (sep : Char) : List String :=
  List.map String.mk (splitOnChar sep s.data)

/-- Modelled from the spec: `Session.send` lives in the missing
`session.py`; per spec section 4.7 a handler sends exactly one reply
envelope with parent set to the id of the request, so send is modelled as
`Session.msg` followed by transmission on the reply socket. -/
def Kernel.session_send (k : Kernel) (msg_type : String) (content : Content)
    (parent : Msg) : Kernel :=
  let rs := k.session.msg msg_type content (some parent)
  { k with session := rs.2, reply_out := k.reply_out ++ [rs.1] }

/-- `Kernel._abort_queue` draining loop body (lines 247-267), recursing
over the requests found by the non-blocking recv: each gets a reply of
type `msg_type.split("_")[0] + "_reply"` with status aborted and parent
set to that request, then the loop sleeps 0.1 s and polls again; it
returns once recv raises EAGAIN (queue empty). -/
def abortList : List Msg → Session → List Msg → Session × List Msg
  | [], s, acc => (s, acc)
  | m :: rest, s, acc =>
    let reply_type := List.headD (pySplit m.msg_type '_') "" ++ kReplySuffix
    let rs := Session.msg s reply_type [(kStatus, Val.str kAborted)] (some m)
    abortList rest rs.2 (acc ++ [rs.1])

/-- `Kernel._abort_queue`: drain the inbound queue, sending an aborted
reply for every queued request in order. -/
def Kernel.abort_queue (k : Kernel) : Kernel :=
  let r := abortList k.inbound k.session []
  { k with session := r.1, inbound := [], reply_out := k.reply_out ++ r.2 }

/-- `Kernel.execute_request` (lines 141-207).  A request without a code
field is printed to stderr and dropped with no reply (lines 142-147).
Otherwise a pyin is published, the code is run, the reply content is
`status ok` plus payload, extended with the prompt information, then
overridden by the `_reply_content` stored by `_showtraceback` when the
run failed; after sending the reply, an error status enters abort mode. -/
def Kernel.execute_request (k : Kernel) (parent : Msg) : Kernel :=
  match getField parent.content kCode with
  | Option.none => k
  | some code =>
    let ms := k.session.msg kPyin [(kCode, code)] (some parent)
    let k1 : Kernel := { k with session := ms.2, pub_out := k.pub_out ++ [ms.1] }
    let base : Content := [(kStatus, Val.str kOk), (kPayload, k1.shell.payload)]
    let prompt_number := k1.shell.prompt_count
    let base := setField base kPromptNumber (Val.num prompt_number)
    let next_prompt : Val := Val.vdict
      [(kPromptString, Val.str k1.shell.peek_next_prompt),
       (kPromptNumber, Val.num (prompt_number + 1)),
       (kInputSep, Val.str k1.shell.input_sep)]
    let base := setField base kNextPrompt next_prompt
    let reply_content : Content :=
      match k1.shell.runlines code with
      | Option.none => base
      | some ex => updateContent base (showtraceback ex.1 ex.2.1 ex.2.2)
    let rs := k1.session.msg kExecuteReply reply_content (some parent)
    let k2 : Kernel := { k1 with session := rs.2, reply_out := k1.reply_out ++ [rs.1] }
    match getField rs.1.content kStatus with
    | some (Val.str s) => if s = kError then Kernel.abort_queue k2 else k2
    | _ => k2

/-- The cursor computation of `Kernel._complete` (lines 293-300):
`try: cpos = int(c[cursor_pos]) except: cpos = len(c[text])`.  A
non-integer value falls back like a missing key; the fallback itself
raises when the text field is missing or not a string. -/
def tryCursorPos (c : Content) : Except PyErr Nat :=
  match getField c kCursorPos with
  | some (Val.num n) => Except.ok n
  | _ =>
    match getField c kText with
    | some (Val.str t) => Except.ok t.length
    | _ => Except.error (PyErr.keyError kText)

/-- `Kernel._complete` (lines 289-301): the text and line fields are read
unguarded, so their absence raises. -/
def Kernel.py_complete (k : Kernel) (msg : Msg) : Except PyErr Val :=
  match tryCursorPos msg.content with
  | Except.error e => Except.error e
  | Except.ok cpos =>
    match getField msg.content kText with
    | Option.none => Except.error (PyErr.keyError kText)
    | some text =>
      match getField msg.content kLine with
      | Option.none => Except.error (PyErr.keyError kLine)
      | some line => Except.ok (k.shell.shell_complete text line cpos)

/-- `Kernel.complete_request` (lines 209-214). -/
def Kernel.complete_request (k : Kernel) (parent : Msg) : Except PyErr Kernel :=
  match Kernel.py_complete k parent with
  | Except.error e => Except.error e
  | Except.ok mv =>
    Except.ok (Kernel.session_send k kCompleteReply
      [(kMatches, mv), (kStatus, Val.str kOk)] parent)

/-- `Kernel.object_info_request` (lines 216-221): the oname field is read
unguarded and `.split` on a non-string raises. -/
def Kernel.object_info_request (k : Kernel) (parent : Msg) : Except PyErr Kernel :=
  match getField parent.content kOname with
  | Option.none => Except.error (PyErr.keyError kOname)
  | some (Val.str oname) =>
    Except.ok (Kernel.session_send k kObjectInfoReply
      [(kDocstring, Val.str (k.shell.object_info_doc (pySplit oname '.')))] parent)
  | some _ => Except.error PyErr.typeError

/-- `Kernel.prompt_request` (lines 223-231): reads no content field. -/
def Kernel.prompt_request (k : Kernel) (parent : Msg) : Kernel :=
  let pn := k.shell.prompt_count
  let content : Content :=
    [(kPromptString, Val.str k.shell.peek_next_prompt),
     (kPromptNumber, Val.num (pn + 1)),
     (kInputSep, Val.str k.shell.input_sep)]
  Kernel.session_send k kPromptReply content parent

/-- `Kernel.history_request` (lines 233-241): output, index and raw are
all read unguarded, so a missing field raises out of the handler. -/
def Kernel.history_request (k : Kernel) (parent : Msg) : Except PyErr Kernel :=
  match getField parent.content kOutput with
  | Option.none => Except.error (PyErr.keyError kOutput)
  | some output =>
    match getField parent.content kIndex with
    | Option.none => Except.error (PyErr.keyError kIndex)
    | some index =>
      match getField parent.content kRaw with
      | Option.none => Except.error (PyErr.keyError kRaw)
      | some raw =>
        Except.ok (Kernel.session_send k kHistoryReply
          [(kHistory, k.shell.get_history index raw output)] parent)

/-- One iteration body of `Kernel.start` (lines 121-135): look the type up
in the handler table built in `__init__` (lines 72-78); an unknown type
is printed and skipped.  The loop itself has no exception handling, so an
exception escaping a handler propagates. -/
def Kernel.handleMsg (k : Kernel) (m : Msg) : Except PyErr Kernel :=
  if m.msg_type = kExecuteRequest then Except.ok (Kernel.execute_request k m)
  else if m.msg_type = kCompleteRequest then Kernel.complete_request k m
  else if m.msg_type = kObjectInfoRequest then Kernel.object_info_request k m
  else if m.msg_type = kPromptRequest then Except.ok (Kernel.prompt_request k m)
  else if m.msg_type = kHistoryRequest then Kernel.history_request k m
  else Except.ok k

/-- The dispatch loop, fuelled: each step receives the next queued request
and runs its handler.  Handlers never enqueue inbound requests, so fuel
equal to the queue length drains it. -/
def Kernel.dispatchN : Nat → Kernel → Except PyErr Kernel
  | 0, k => Except.ok k
  | fuel + 1, k =>
    match k.inbound with
    | [] => Except.ok k
    | m :: rest =>
      match Kernel.handleMsg { k with inbound := rest } m with
      | Except.error e => Except.error e
      | Except.ok k2 => Kernel.dispatchN fuel k2

/-- `Kernel.start`, run until the modelled inbound queue is exhausted (the
real loop then blocks on the next recv). -/
def Kernel.start (k : Kernel) : Except PyErr Kernel :=
  Kernel.dispatchN k.inbound.length k

/-! ## KernelManager

From `kernelmanager.KernelManager` (lines 454-633). -/

/-- The child process handle; `poll` is the current `Popen.poll()` answer,
none while the process is running. -/
structure KernelProc where
  poll : Option Int
  deriving DecidableEq, Repr

/-- Errors raised synchronously by the manager and channel constructors. -/
inductive MgrErr where
  | invalidPortNumber
  | runtimeError
  | typeError
  deriving DecidableEq, Repr

/-- A constructed channel, as the manager sees it. -/
structure SockChannel where
  address : String × Nat
  started : Bool
  deriving DecidableEq, Repr

/-- `ZmqSocketChannel.__init__` (lines 58-78): raises InvalidPortNumber
when the configured port is 0, before any thread exists. -/
def ZmqSocketChannel.init (address : String × Nat) : Except MgrErr SockChannel :=
  if address.2 = 0 then Except.error MgrErr.invalidPortNumber
  else Except.ok ⟨address, false⟩

/-- Which channel threads `start_channels` spawned, in start order. -/
inductive ChannelKind where
  | xreq
  | sub
  | rep
  deriving DecidableEq, Repr

structure KernelManager where
  kernel : Option KernelProc
  launch_args : Option (List (String × Val))
  xreq_address : String × Nat
  sub_address : String × Nat
  rep_address : String × Nat
  xreq_channel_cache : Option SockChannel
  sub_channel_cache : Option SockChannel
  rep_channel_cache : Option SockChannel

/-- A channel property access (lines 607-632): return the cached channel
or construct one from the current address. -/
def channelFor (cache : Option SockChannel) (addr : String × Nat) :
    Except MgrErr SockChannel :=
  match cache with
  | some ch => Except.ok ch
  | Option.none => ZmqSocketChannel.init addr

/-- `KernelManager.start_channels` (lines 494-504): access and start the
xreq, sub and rep channels in that order.  The first component lists the
threads already spawned when the call returns or raises. -/
def KernelManager.start_channels (km : KernelManager) :
    List ChannelKind × Except MgrErr KernelManager :=
  match channelFor km.xreq_channel_cache km.xreq_address with
  | Except.error e => ([], Except.error e)
  | Except.ok xc =>
    let km1 := { km with xreq_channel_cache := some { xc with started := true } }
    match channelFor km1.sub_channel_cache km1.sub_address with
    | Except.error e => ([ChannelKind.xreq], Except.error e)
    | Except.ok sc =>
      let km2 := { km1 with sub_channel_cache := some { sc with started := true } }
      match channelFor km2.rep_channel_cache km2.rep_address with
      | Except.error e => ([ChannelKind.xreq, ChannelKind.sub], Except.error e)
      | Except.ok rc =>
        ([ChannelKind.xreq, ChannelKind.sub, ChannelKind.rep],
         Except.ok { km2 with rep_channel_cache := some { rc with started := true } })

/-- The launch function (`launch_kernel`): given the three requested ports
it returns the process handle and the ports the process actually bound
(spec section 4.6: port 0 means assign and report back).  Which launcher
runs (ipython or plain python, chosen by popping the ipython option) is
irrelevant to the claims, so it is a parameter. -/
def Launcher : Type := Nat → Nat → Nat → KernelProc × Nat × Nat × Nat

/-- `KernelManager.start_kernel` (lines 527-553): refuse non-loop-back
hosts, store a copy of the keyword arguments, launch, and rewrite the
three addresses with the ports the process bound. -/
def KernelManager.start_kernel (launch : Launcher) (km : KernelManager)
    (kw : List (String × Val)) : Except MgrErr KernelManager :=
  if km.xreq_address.1 = LOCALHOST ∧ km.sub_address.1 = LOCALHOST ∧
      km.rep_address.1 = LOCALHOST then
    let r := launch km.xreq_address.2 km.sub_address.2 km.rep_address.2
    Except.ok { km with
      launch_args := some kw,
      kernel := some r.1,
      xreq_address := (LOCALHOST, r.2.1),
      sub_address := (LOCALHOST, r.2.2.1),
      rep_address := (LOCALHOST, r.2.2.2) }
  else Except.error MgrErr.runtimeError

/-- Python call semantics at a `start_kernel` call site: the method is
declared `def start_kernel(self, **kw)`, keyword arguments only, so any
positional argument raises TypeError before the body runs. -/
def KernelManager.call_start_kernel (launch : Launcher) (km : KernelManager)
    (positional : List Val) (keyword : List (String × Val)) :
    Except MgrErr KernelManager :=
  match positional with
  | [] => KernelManager.start_kernel launch km keyword
  | _ => Except.error MgrErr.typeError

def KernelManager.has_kernel (km : KernelManager) : Bool :=
  km.kernel.isSome

/-- `KernelManager.kill_kernel` (lines 575-581): kill the process and drop
the handle, or raise RuntimeError when there is none. -/
def KernelManager.kill_kernel (km : KernelManager) : Except MgrErr KernelManager :=
  match km.kernel with
  | some _ => Except.ok { km with kernel := Option.none }
  | Option.none => Except.error MgrErr.runtimeError

/-- `KernelManager.signal_kernel` (lines 583-588). -/
def KernelManager.signal_kernel (km : KernelManager) (signum : Nat) :
    Except MgrErr KernelManager :=
  match km.kernel with
  | some _ => Except.ok km
  | Option.none => Except.error MgrErr.runtimeError

/-- `KernelManager.restart_kernel` (lines 555-566).  Line 566 reads
`self.start_kernel(*self._launch_args)`: a single-star unpack of the
stored dict, which passes the DICT KEYS as positional arguments to a
keyword-only method. -/
def KernelManager.restart_kernel (launch : Launcher) (km : KernelManager) :
    Except MgrErr KernelManager :=
  match km.launch_args with
  | Option.none => Except.error MgrErr.runtimeError
  | some args =>
    let km1 := if km.has_kernel then { km with kernel := Option.none } else km
    KernelManager.call_start_kernel launch km1
      (List.map (fun kv => Val.str kv.1) args) []

/-- `KernelManager.is_alive` (lines 590-601). -/
def KernelManager.is_alive (km : KernelManager) : Bool :=
  match km.kernel with
  | some p =>
    match p.poll with
    | Option.none => true
    | some _ => false
  | Option.none => true

/-! ## Auxiliary predicates and projections used by the statements -/

def isNumO : Option Val → Bool
  | some (Val.num _) => true
  | _ => false

def isStrO : Option Val → Bool
  | some (Val.str _) => true
  | _ => false

/-- A request is well-formed when every content field its handler reads
unguarded is present (with the shape the handler needs), so the handler
raises nothing; the completion cursor may instead fall back to the text
length, which needs the text to be a string. -/
def wellFormedB (m : Msg) : Bool :=
  if m.msg_type = kExecuteRequest then (getField m.content kCode).isSome
  else if m.msg_type = kCompleteRequest then
    (isNumO (getField m.content kCursorPos) || isStrO (getField m.content kText))
      && (getField m.content kText).isSome && (getField m.content kLine).isSome
  else if m.msg_type = kObjectInfoRequest then isStrO (getField m.content kOname)
  else if m.msg_type = kPromptRequest then true
  else if m.msg_type = kHistoryRequest then
    (getField m.content kOutput).isSome && (getField m.content kIndex).isSome
      && (getField m.content kRaw).isSome
  else false

/-- The observable part of a reply: parent link, type tag, status field. -/
def projR (m : Msg) : Option Nat × String × Option Val :=
  (m.parent, m.msg_type, getField m.content kStatus)

/-- The projection `_abort_queue` promises for the reply to a request. -/
def abortProj (r : Msg) : Option Nat × String × Option Val :=
  (some r.msg_id, List.headD (pySplit r.msg_type '_') "" ++ kReplySuffix,
   some (Val.str kAborted))

/-! ## Concrete instances for counterexamples and witnesses -/

def sEmpty : String := ""
def sCode : String := "x=1"
def sFortyTwo : String := "42"
def sPromptGt : String := "> "

/-- A shell on which every run succeeds. -/
def shell0 : Shell :=
  ⟨fun _ => Option.none, Val.pynone, 0, sEmpty, sEmpty,
   fun _ _ _ => Val.pynone, fun _ _ _ => Val.pynone, fun _ => sEmpty⟩

/-- A shell on which every run fails. -/
def shellFail : Shell :=
  ⟨fun _ => some (sEmpty, sEmpty, Val.pynone), Val.pynone, 0, sEmpty, sEmpty,
   fun _ _ _ => Val.pynone, fun _ _ _ => Val.pynone, fun _ => sEmpty⟩

def c1r0 : Msg := ⟨21, kExecuteRequest, 7, Option.none,
  [(kCode, Val.str sCode), (kSilent, Val.bool false)]⟩
def c1r1 : Msg := ⟨22, kExecuteRequest, 7, Option.none, [(kCode, Val.str sCode)]⟩
def c1r2 : Msg := ⟨23, kExecuteRequest, 7, Option.none, [(kCode, Val.str sCode)]⟩
def c1kernel : Kernel := ⟨⟨7, 100⟩, shellFail, [c1r0, c1r1, c1r2], [], []⟩

def c2chan : XReqSocketChannel := ⟨⟨7, 100⟩, [], ⟨POLLERR ||| POLLIN, []⟩⟩
def c2kernel : Kernel := ⟨⟨8, 200⟩, shell0, [], [], []⟩

def c3req : Msg := ⟨5, kInputRequest, 7, Option.none, [(kPrompt, Val.str sPromptGt)]⟩
def c3chan : RepSocketChannel := ⟨⟨7, 100⟩, [], ⟨POLLERR ||| POLLIN, []⟩⟩
def c3answered : RepSocketChannel := RepSocketChannel.input c3chan sFortyTwo

def c4hist : Msg := ⟨11, kHistoryRequest, 7, Option.none,
  [(kIndex, Val.pynone), (kRaw, Val.bool false)]⟩
def c4prompt : Msg := ⟨12, kPromptRequest, 7, Option.none, []⟩
def c4execBad : Msg := ⟨13, kExecuteRequest, 7, Option.none, []⟩
def c4complBad : Msg := ⟨14, kCompleteRequest, 7, Option.none, [(kLine, Val.str sEmpty)]⟩
def c4oiBad : Msg := ⟨15, kObjectInfoRequest, 7, Option.none, []⟩
def c4kernel : Kernel := ⟨⟨7, 100⟩, shell0, [c4hist, c4prompt], [], []⟩
def c4kernelCompl : Kernel := ⟨⟨7, 100⟩, shell0, [c4complBad, c4prompt], [], []⟩
def c4kernelOi : Kernel := ⟨⟨7, 100⟩, shell0, [c4oiBad, c4prompt], [], []⟩
def c4kernelEmpty : Kernel := ⟨⟨7, 100⟩, shell0, [], [], []⟩

def c5launch : Launcher := fun _ _ _ => (⟨Option.none⟩, 10, 11, 12)
def c5km : KernelManager := ⟨Option.none, Option.none, (LOCALHOST, 0),
  (LOCALHOST, 0), (LOCALHOST, 0), Option.none, Option.none, Option.none⟩

def c6km : KernelManager := ⟨Option.none, Option.none, (LOCALHOST, 5555),
  (LOCALHOST, 0), (LOCALHOST, 5557), Option.none, Option.none, Option.none⟩
def c6kmZero : KernelManager := ⟨Option.none, Option.none, (LOCALHOST, 0),
  (LOCALHOST, 0), (LOCALHOST, 0), Option.none, Option.none, Option.none⟩

def c7proc : KernelProc := ⟨Option.none⟩
def c7kmNone : KernelManager := ⟨Option.none, Option.none, (LOCALHOST, 0),
  (LOCALHOST, 0), (LOCALHOST, 0), Option.none, Option.none, Option.none⟩
def c7kmSome : KernelManager := { c7kmNone with kernel := some c7proc }

def c8m1 : Msg := ⟨1, kPyout, 7, Option.none, []⟩
def c8m2 : Msg := ⟨2, kPyout, 7, Option.none, []⟩

def c10proc : KernelProc := ⟨Option.none⟩
def c10kmNone : KernelManager := ⟨Option.none, Option.none, (LOCALHOST, 0),
  (LOCALHOST, 0), (LOCALHOST, 0), Option.none, Option.none, Option.none⟩
def c10kmSome : KernelManager := { c10kmNone with kernel := some c10proc }

/-! # Theorems -/

/-! ## Bitmask lemmas -/

theorem lor_land_self (a b : Nat) : (a ||| b) &&& b = b := by
  apply Nat.eq_of_testBit_eq
  intro i
  simp [Nat.testBit_land, Nat.testBit_lor]
  cases a.testBit i <;> cases b.testBit i <;> simp

theorem xorland_land_self (a b : Nat) : (a ^^^ (a &&& b)) &&& b = 0 := by
  apply Nat.eq_of_testBit_eq
  intro i
  simp [Nat.testBit_land, Nat.testBit_xor]

/-- C9: add_io_state and drop_io_state mutate the io-interest bitmask only
through a callback scheduled on the event loop, never from the calling
thread, and the callbacks are idempotent: they set respectively clear the
given bits and call update_handler exactly when the bits are not already
set respectively already set, so running the same callback twice yields
the same iostate as running it once. -/
theorem claim_c9_io_state_idempotent (ch : ChannelLoopState) (io st : Nat) :
    (ZmqSocketChannel.add_io_state ch st).iostate = ch.iostate
  ∧ (ZmqSocketChannel.add_io_state ch st).scheduled = ch.scheduled ++ [IOReq.addState st]
  ∧ (ZmqSocketChannel.drop_io_state ch st).iostate = ch.iostate
  ∧ (ZmqSocketChannel.drop_io_state ch st).scheduled = ch.scheduled ++ [IOReq.dropState st]
  ∧ (add_io_state_callback (add_io_state_callback io st).1 st).1
      = (add_io_state_callback io st).1
  ∧ (drop_io_state_callback (drop_io_state_callback io st).1 st).1
      = (drop_io_state_callback io st).1
  ∧ ((add_io_state_callback io st).2 = true ↔ io &&& st = 0)
  ∧ ((drop_io_state_callback io st).2 = true ↔ io &&& st ≠ 0) := by
  refine ⟨rfl, rfl, rfl, rfl, ?_, ?_, ?_, ?_⟩
  · by_cases h : io &&& st = 0
    · simp only [add_io_state_callback, if_pos h, lor_land_self]
      by_cases hst : st = 0
      · subst hst; simp
      · rw [if_neg hst]
    · simp [add_io_state_callback, h]
  · by_cases h : io &&& st = 0
    · simp [drop_io_state_callback, h]
    · simp only [drop_io_state_callback, if_neg h, xorland_land_self]
      simp
  · by_cases h : io &&& st = 0 <;> simp [add_io_state_callback, h]
  · by_cases h : io &&& st = 0 <;> simp [drop_io_state_callback, h]

/-! ## KernelManager lifecycle claims -/

/-- C5 (code bug): starting a kernel with a non-empty keyword-option set
and then calling restart_kernel raises TypeError instead of relaunching
with the stored options, because line 566 unpacks the stored dict with a
single star, passing its keys positionally to the keyword-only
start_kernel; the docstring of restart_kernel promises a relaunch with
the same arguments. -/
theorem claim_c5_restart_typeerror :
    ∃ km1 : KernelManager,
      KernelManager.start_kernel c5launch c5km [(kIpython, Val.bool false)]
        = Except.ok km1
    ∧ km1.launch_args = some [(kIpython, Val.bool false)]
    ∧ km1.has_kernel = true
    ∧ KernelManager.restart_kernel c5launch km1 = Except.error MgrErr.typeError := by
  exact ⟨_, rfl, rfl, rfl, rfl⟩

/-- C6 counterexample: with a fresh manager whose xreq port is nonzero but
whose sub port is 0, start_channels raises InvalidPortNumber only after
the xreq channel thread has already been spawned, so the configuration
error is not raised before any thread starts. -/
theorem claim_c6_counterexample :
    (KernelManager.start_channels c6km).2 = Except.error MgrErr.invalidPortNumber
  ∧ (KernelManager.start_channels c6km).1 = [ChannelKind.xreq]
  ∧ [ChannelKind.xreq] ≠ ([] : List ChannelKind) := by
  exact ⟨rfl, rfl, by decide⟩

/-- C6 amended: creating a channel whose address has port 0 fails with
InvalidPortNumber before that channel exists; start_channels on fresh
channels raises InvalidPortNumber whenever some configured port is 0, and
when the xreq port is 0 (in particular in the default all-zero
configuration reached without start_kernel) no thread at all has been
spawned; when only a later channel has port 0, the channels earlier in
the fixed start order have already spawned their threads. -/
theorem claim_c6_amended_port_zero (km : KernelManager) (addr : String × Nat)
    (hx : km.xreq_channel_cache = Option.none)
    (hs : km.sub_channel_cache = Option.none)
    (hr : km.rep_channel_cache = Option.none) :
    (addr.2 = 0 → ZmqSocketChannel.init addr = Except.error MgrErr.invalidPortNumber)
  ∧ ((km.xreq_address.2 = 0 ∨ km.sub_address.2 = 0 ∨ km.rep_address.2 = 0) →
      (KernelManager.start_channels km).2 = Except.error MgrErr.invalidPortNumber)
  ∧ (km.xreq_address.2 = 0 → (KernelManager.start_channels km).1 = []) := by
  refine ⟨fun h => by simp [ZmqSocketChannel.init, h], ?_, ?_⟩
  · intro hzero
    by_cases h1 : km.xreq_address.2 = 0
    · simp [KernelManager.start_channels, channelFor, ZmqSocketChannel.init, hx, h1]
    · by_cases h2 : km.sub_address.2 = 0
      · simp [KernelManager.start_channels, channelFor, ZmqSocketChannel.init,
          hx, hs, h1, h2]
      · have h3 : km.rep_address.2 = 0 := by tauto
        simp [KernelManager.start_channels, channelFor, ZmqSocketChannel.init,
          hx, hs, hr, h1, h2, h3]
  · intro h1
    simp [KernelManager.start_channels, channelFor, ZmqSocketChannel.init, hx, h1]

/-- C6 witness: the default all-zero configuration. -/
theorem claim_c6_witness :
    ZmqSocketChannel.init (LOCALHOST, 0) = Except.error MgrErr.invalidPortNumber
  ∧ (KernelManager.start_channels c6kmZero).2 = Except.error MgrErr.invalidPortNumber
  ∧ (KernelManager.start_channels c6kmZero).1 = [] := by
  obtain ⟨a, b, c⟩ := claim_c6_amended_port_zero c6kmZero (LOCALHOST, 0) rfl rfl rfl
  exact ⟨a rfl, b (Or.inl rfl), c rfl⟩

/-- C7: kill_kernel and signal_kernel raise RuntimeError when no process
handle exists; a successful kill_kernel drops the handle, so has_kernel
becomes false and a subsequent signal_kernel raises that error. -/
theorem claim_c7_kill_signal_lifecycle (km km2 : KernelManager) (sig : Nat) :
    (km.kernel = Option.none →
       km.kill_kernel = Except.error MgrErr.runtimeError
     ∧ km.signal_kernel sig = Except.error MgrErr.runtimeError)
  ∧ (km.kill_kernel = Except.ok km2 →
       km2.has_kernel = false
     ∧ km2.signal_kernel sig = Except.error MgrErr.runtimeError) := by
  constructor
  · intro h
    exact ⟨by simp [KernelManager.kill_kernel, h], by simp [KernelManager.signal_kernel, h]⟩
  · intro h
    cases hk : km.kernel with
    | none => simp [KernelManager.kill_kernel, hk] at h
    | some p =>
      simp [KernelManager.kill_kernel, hk] at h
      subst h
      exact ⟨rfl, rfl⟩

/-- C7 witness. -/
theorem claim_c7_witness :
    c7kmNone.kill_kernel = Except.error MgrErr.runtimeError
  ∧ c7kmNone.signal_kernel 9 = Except.error MgrErr.runtimeError
  ∧ (KernelManager.kill_kernel c7kmSome = Except.ok c7kmNone)
  ∧ c7kmNone.has_kernel = false := by
  obtain ⟨ha, hb⟩ := (claim_c7_kill_signal_lifecycle c7kmNone c7kmNone 9).1 rfl
  obtain ⟨hc, _⟩ := (claim_c7_kill_signal_lifecycle c7kmSome c7kmNone 9).2 rfl
  exact ⟨ha, hb, rfl, hc⟩

/-- C10: is_alive reports true whenever no process handle exists, in
particular on a manager that never started a kernel or whose kernel was
killed; with a handle it is true exactly when poll() returns None. -/
theorem claim_c10_is_alive (km km2 : KernelManager) (p : KernelProc) :
    (km.kernel = Option.none → km.is_alive = true)
  ∧ (km.kernel = some p → (km.is_alive = true ↔ p.poll = Option.none))
  ∧ (km.kill_kernel = Except.ok km2 → km2.is_alive = true) := by
  refine ⟨fun h => by simp [KernelManager.is_alive, h], fun h => ?_, fun h => ?_⟩
  · cases hp : p.poll <;> simp [KernelManager.is_alive, h, hp]
  · cases hk : km.kernel with
    | none => simp [KernelManager.kill_kernel, hk] at h
    | some q =>
      simp [KernelManager.kill_kernel, hk] at h
      subst h
      rfl

/-- C10 witness. -/
theorem claim_c10_witness :
    c10kmNone.is_alive = true
  ∧ (c10kmSome.is_alive = true ↔ c10proc.poll = Option.none)
  ∧ c10kmNone.is_alive = true := by
  exact ⟨(claim_c10_is_alive c10kmNone c10kmNone c10proc).1 rfl,
    (claim_c10_is_alive c10kmSome c10kmNone c10proc).2.1 rfl,
    (claim_c10_is_alive c10kmSome c10kmNone c10proc).2.2 rfl⟩

/-! ## Input Channel (C3) -/

/-- C3 counterexample: the input_request with id 5, answered by
input with the string 42, yields a queued input_reply whose parent is
null, not the id of the request: RepSocketChannel.input builds the reply
with no parent argument. -/
theorem claim_c3_counterexample :
    List.map Msg.parent c3answered.msg_queue = [Option.none]
  ∧ List.map Msg.parent c3answered.msg_queue ≠ [some c3req.msg_id] := by
  refine ⟨rfl, ?_⟩
  intro h
  rw [show List.map Msg.parent c3answered.msg_queue = [Option.none] from rfl] at h
  simp at h

/-- C3 amended: answering an input_request by calling input(value)
enqueues exactly one input_reply envelope whose content value field
equals value and requests writable-interest on the channel; the parent of
that envelope is null, not the id of the request, because input receives
only the string and passes no parent when building the reply. -/
theorem claim_c3_amended_input_reply (ch : RepSocketChannel) (value : String) :
    ∃ m : Msg,
      (ch.input value).msg_queue = ch.msg_queue ++ [m]
    ∧ m.msg_type = kInputReply
    ∧ getField m.content kValue = some (Val.str value)
    ∧ m.parent = Option.none
    ∧ (ch.input value).loop.scheduled = ch.loop.scheduled ++ [IOReq.addState POLLOUT]
    ∧ (ch.input value).loop.iostate = ch.loop.iostate := by
  refine ⟨_, rfl, rfl, ?_, rfl, rfl, rfl⟩
  simp [getField]

/-! ## Broadcast Channel flush (C8) -/

theorem busyWait_flushed (rem : Nat) (st : FlushSt) (h : st.flushed = true) :
    busyWait rem st = st := by
  cases rem <;> simp [busyWait, h]

/-- A busy-wait whose queue holds messages and then the scheduled callback
delivers all the messages, sets the flag at the tick after them, and
stops, provided the deadline leaves enough ticks. -/
theorem busyWait_msgs (ms : List Msg) (tail : List LoopEvent) (d : List Msg)
    (now rem : Nat) (h : ms.length + 1 ≤ rem) :
    busyWait rem ⟨List.map LoopEvent.recv ms ++ LoopEvent.callback :: tail, d, false, now⟩
      = ⟨tail, d ++ ms, true, now + (ms.length + 1)⟩ := by
  induction ms generalizing d now rem with
  | nil =>
    obtain ⟨r, rfl⟩ : ∃ r, rem = r + 1 := ⟨rem - 1, by omega⟩
    simp only [List.map_nil, List.nil_append, busyWait]
    rw [busyWait_flushed r _ rfl]
    simp
  | cons m ms ih =>
    obtain ⟨r, rfl⟩ : ∃ r, rem = r + 1 := ⟨rem - 1, by omega⟩
    simp only [List.map_cons, List.cons_append, busyWait]
    rw [ih (d ++ [m]) (now + 1) r (by simp at h; omega)]
    simp [List.append_assoc]
    omega

/-- C8 amended: flush performs exactly two passes against the single
shared deadline of call time plus timeout, each scheduling the no-op
callback and busy-polling in 0.01 second ticks; PROVIDED the pending
work fits in the deadline (pending count plus the two callback ticks at
most timeout), every message that arrived before the call has been
delivered to call_handlers when flush returns, the flushed flag is set,
and the return happens at tick pending count plus two, so with zero
pending messages and the default timeout of 100 ticks the call returns
well before the deadline; when the deadline cuts the polls short,
messages can be left undelivered (see the counterexample). -/
theorem claim_c8_amended_flush (pending delivered : List Msg) (timeout : Nat)
    (h : pending.length + 2 ≤ timeout) :
    (SubSocketChannel.flush pending delivered timeout).delivered
        = delivered ++ pending
  ∧ (SubSocketChannel.flush pending delivered timeout).flushed = true
  ∧ (SubSocketChannel.flush pending delivered timeout).now
        = pending.length + 2 := by
  have e1 : busyWait ((0 + timeout) - 0)
      ⟨List.map LoopEvent.recv pending ++ [LoopEvent.callback], delivered, false, 0⟩
      = ⟨[], delivered ++ pending, true, 0 + (pending.length + 1)⟩ :=
    busyWait_msgs pending [] delivered 0 _ (by omega)
  have e2 : busyWait ((0 + timeout) - (0 + (pending.length + 1)))
      ⟨[LoopEvent.callback], delivered ++ pending, false, 0 + (pending.length + 1)⟩
      = ⟨[], (delivered ++ pending) ++ [], true,
          (0 + (pending.length + 1)) + (0 + 1)⟩ :=
    busyWait_msgs [] [] (delivered ++ pending) _ _ (by simp; omega)
  simp only [SubSocketChannel.flush]
  rw [e1]
  simp only [List.nil_append]
  rw [e2]
  refine ⟨by simp, by simp, by simp⟩

/-- C8 witness for the amended claim: zero pending messages, default
timeout of one second (100 ticks). -/
theorem claim_c8_witness :
    ([] : List Msg).length + 2 ≤ 100
  ∧ (SubSocketChannel.flush [] [] 100).delivered = []
  ∧ (SubSocketChannel.flush [] [] 100).flushed = true
  ∧ (SubSocketChannel.flush [] [] 100).now = 2 := by
  obtain ⟨a, b, c⟩ := claim_c8_amended_flush [] [] 100 (by decide)
  exact ⟨by decide, a, b, c⟩

/-- C8 counterexample: with two messages pending and a deadline of one
tick, flush returns at the deadline having delivered only the first
message, so it is not the case that on return every message that arrived
before the call has been delivered to call_handlers. -/
theorem claim_c8_counterexample :
    (SubSocketChannel.flush [c8m1, c8m2] [] 1).delivered = [c8m1]
  ∧ (SubSocketChannel.flush [c8m1, c8m2] [] 1).flushed = false
  ∧ (SubSocketChannel.flush [c8m1, c8m2] [] 1).delivered ≠ [c8m1, c8m2] := by
  refine ⟨rfl, rfl, ?_⟩
  intro h
  rw [show (SubSocketChannel.flush [c8m1, c8m2] [] 1).delivered = [c8m1] from rfl] at h
  simpa using congrArg List.length h

/-! ## Kernel dispatch claims (C1, C2, C4) -/

theorem getField_setField_self (c : Content) (k : String) (v : Val) :
    getField (setField c k v) k = some v := by
  induction c with
  | nil => simp [setField, getField]
  | cons kv rest ih =>
    obtain ⟨k0, v0⟩ := kv
    by_cases h : k0 = k
    · simp [setField, getField, h]
    · simp [setField, getField, h, ih]

theorem getField_setField_ne (c : Content) (k k2 : String) (v : Val) (h : k ≠ k2) :
    getField (setField c k v) k2 = getField c k2 := by
  induction c with
  | nil => simp [setField, getField, h]
  | cons kv rest ih =>
    obtain ⟨k0, v0⟩ := kv
    by_cases h0 : k0 = k
    · subst h0
      simp [setField, getField, h]
    · by_cases h2 : k0 = k2 <;> simp [setField, getField, h0, h2, ih, Ne.symm h]

/-- The content built by execute_request carries status error after the
update with the showtraceback content. -/
theorem getField_updateShowTb_status (c : Content) (en ev : String) (tb : Val) :
    getField (updateContent c (showtraceback en ev tb)) kStatus
      = some (Val.str kError) := by
  simp only [updateContent, showtraceback, List.foldl]
  rw [getField_setField_ne _ _ _ _ (by decide),
      getField_setField_ne _ _ _ _ (by decide),
      getField_setField_ne _ _ _ _ (by decide),
      getField_setField_self]

/-- The content built by execute_request carries status ok when the run
succeeded. -/
theorem getField_execBase_status (p pn np : Val) :
    getField (setField (setField [(kStatus, Val.str kOk), (kPayload, p)]
        kPromptNumber pn) kNextPrompt np) kStatus = some (Val.str kOk) := by
  rw [getField_setField_ne _ _ _ _ (by decide),
      getField_setField_ne _ _ _ _ (by decide)]
  simp [getField]

/-- execute_request on a failing run: one reply with parent the request
id, type execute_reply and status error, followed by the aborted replies
for everything still queued; the queue is drained. -/
theorem execute_request_error (k : Kernel) (m : Msg) (c : Val) (ex : String × String × Val)
    (hc : getField m.content kCode = some c)
    (hrun : k.shell.runlines c = some ex) :
    (Kernel.execute_request k m).inbound = []
    ∧ (Kernel.execute_request k m).reply_out
        = k.reply_out
          ++ ⟨k.session.next_id + 1, kExecuteReply, k.session.session, some m.msg_id,
               updateContent
                 (setField
                   (setField [(kStatus, Val.str kOk), (kPayload, k.shell.payload)]
                     kPromptNumber (Val.num k.shell.prompt_count))
                   kNextPrompt (Val.vdict
                     [(kPromptString, Val.str k.shell.peek_next_prompt),
                      (kPromptNumber, Val.num (k.shell.prompt_count + 1)),
                      (kInputSep, Val.str k.shell.input_sep)]))
                 (showtraceback ex.1 ex.2.1 ex.2.2)⟩
             :: (abortList k.inbound ⟨k.session.session, k.session.next_id + 2⟩ []).2 := by
  simp only [Kernel.execute_request, hc, hrun, Session.msg, getField_updateShowTb_status,
    Kernel.abort_queue, reduceIte]
  refine ⟨by trivial, ?_⟩
  simp [List.append_assoc]

/-- execute_request on a successful run: one reply with parent the
request id and type execute_reply; nothing else changes hands. -/
theorem execute_request_ok (k : Kernel) (m : Msg) (c : Val)
    (hc : getField m.content kCode = some c)
    (hrun : k.shell.runlines c = Option.none) :
    (Kernel.execute_request k m).inbound = k.inbound
    ∧ (Kernel.execute_request k m).reply_out
        = k.reply_out
          ++ [⟨k.session.next_id + 1, kExecuteReply, k.session.session, some m.msg_id,
               setField
                 (setField [(kStatus, Val.str kOk), (kPayload, k.shell.payload)]
                   kPromptNumber (Val.num k.shell.prompt_count))
                 kNextPrompt (Val.vdict
                   [(kPromptString, Val.str k.shell.peek_next_prompt),
                    (kPromptNumber, Val.num (k.shell.prompt_count + 1)),
                    (kInputSep, Val.str k.shell.input_sep)])⟩] := by
  simp only [Kernel.execute_request, hc, hrun, Session.msg, getField_execBase_status,
    kOk, kError, reduceIte]
  exact ⟨rfl, rfl⟩



/-- session_send appends exactly one reply, parent-linked to the request. -/
theorem session_send_spec (k : Kernel) (t : String) (c : Content) (m : Msg) :
    (Kernel.session_send k t c m).reply_out
      = k.reply_out ++ [⟨k.session.next_id, t, k.session.session, some m.msg_id, c⟩]
    ∧ (Kernel.session_send k t c m).inbound = k.inbound := ⟨rfl, rfl⟩

/-- complete_request succeeds with one reply when the fields its handler
reads are present with usable shapes. -/
theorem complete_request_wf (k : Kernel) (m : Msg)
    (h1 : (isNumO (getField m.content kCursorPos) || isStrO (getField m.content kText)) = true)
    (h2 : (getField m.content kText).isSome = true)
    (h3 : (getField m.content kLine).isSome = true) :
    ∃ mv, Kernel.complete_request k m
        = Except.ok (Kernel.session_send k kCompleteReply
            [(kMatches, mv), (kStatus, Val.str kOk)] m) := by
  obtain ⟨text, htext⟩ := Option.isSome_iff_exists.1 h2
  obtain ⟨line, hline⟩ := Option.isSome_iff_exists.1 h3
  have hcpos : ∃ n, tryCursorPos m.content = Except.ok n := by
    unfold tryCursorPos
    cases hcp : getField m.content kCursorPos with
    | none =>
      simp only [hcp, isNumO, Bool.false_or] at h1
      cases text with
      | str t => simp [htext]
      | bool b => simp [htext, isStrO] at h1
      | num n => simp [htext, isStrO] at h1
      | pynone => simp [htext, isStrO] at h1
      | vdict d => simp [htext, isStrO] at h1
    | some v =>
      cases v with
      | num n => simp
      | str s =>
        simp only [hcp, isNumO, Bool.false_or] at h1
        cases text with
        | str t => simp [htext]
        | bool b => simp [htext, isStrO] at h1
        | num n => simp [htext, isStrO] at h1
        | pynone => simp [htext, isStrO] at h1
        | vdict d => simp [htext, isStrO] at h1
      | bool b =>
        simp only [hcp, isNumO, Bool.false_or] at h1
        cases text with
        | str t => simp [htext]
        | bool b2 => simp [htext, isStrO] at h1
        | num n => simp [htext, isStrO] at h1
        | pynone => simp [htext, isStrO] at h1
        | vdict d => simp [htext, isStrO] at h1
      | pynone =>
        simp only [hcp, isNumO, Bool.false_or] at h1
        cases text with
        | str t => simp [htext]
        | bool b2 => simp [htext, isStrO] at h1
        | num n => simp [htext, isStrO] at h1
        | pynone => simp [htext, isStrO] at h1
        | vdict d => simp [htext, isStrO] at h1
      | vdict d =>
        simp only [hcp, isNumO, Bool.false_or] at h1
        cases text with
        | str t => simp [htext]
        | bool b2 => simp [htext, isStrO] at h1
        | num n => simp [htext, isStrO] at h1
        | pynone => simp [htext, isStrO] at h1
        | vdict d2 => simp [htext, isStrO] at h1
  obtain ⟨n, hn⟩ := hcpos
  refine ⟨k.shell.shell_complete text line n, ?_⟩
  simp [Kernel.complete_request, Kernel.py_complete, hn, htext, hline]

/-- object_info_request succeeds with one reply when oname is a string. -/
theorem object_info_request_wf (k : Kernel) (m : Msg) (s : String)
    (h : getField m.content kOname = some (Val.str s)) :
    Kernel.object_info_request k m
      = Except.ok (Kernel.session_send k kObjectInfoReply
          [(kDocstring, Val.str (k.shell.object_info_doc (pySplit s '.')))] m) := by
  simp [Kernel.object_info_request, h]

/-- history_request succeeds with one reply when all three fields exist. -/
theorem history_request_wf (k : Kernel) (m : Msg) (output index raw : Val)
    (ho : getField m.content kOutput = some output)
    (hi : getField m.content kIndex = some index)
    (hr : getField m.content kRaw = some raw) :
    Kernel.history_request k m
      = Except.ok (Kernel.session_send k kHistoryReply
          [(kHistory, k.shell.get_history index raw output)] m) := by
  simp [Kernel.history_request, ho, hi, hr]

/-- Any well-formed request of a registered type gets exactly one reply,
parent-linked to it, when nothing is queued behind it. -/
theorem handleMsg_wf (k : Kernel) (m : Msg) (hk : k.inbound = [])
    (hwf : wellFormedB m = true) :
    ∃ k2 rep, Kernel.handleMsg k m = Except.ok k2
      ∧ k2.reply_out = k.reply_out ++ [rep]
      ∧ rep.parent = some m.msg_id := by
  unfold wellFormedB at hwf
  unfold Kernel.handleMsg
  by_cases he : m.msg_type = kExecuteRequest
  · rw [if_pos he] at hwf ⊢
    obtain ⟨c, hc⟩ := Option.isSome_iff_exists.1 hwf
    cases hrun : k.shell.runlines c with
    | none =>
      obtain ⟨h1, h2⟩ := execute_request_ok k m c hc hrun
      exact ⟨_, _, rfl, h2, rfl⟩
    | some ex =>
      obtain ⟨h1, h2⟩ := execute_request_error k m c ex hc hrun
      rw [hk] at h2
      simp only [abortList] at h2
      exact ⟨_, _, rfl, by rw [h2], rfl⟩
  · rw [if_neg he] at hwf ⊢
    by_cases hcm : m.msg_type = kCompleteRequest
    · rw [if_pos hcm] at hwf ⊢
      obtain ⟨ha, hb⟩ := Bool.and_eq_true_iff.1 hwf
      obtain ⟨h1, h2⟩ := Bool.and_eq_true_iff.1 ha
      obtain ⟨mv, hmv⟩ := complete_request_wf k m h1 h2 hb
      rw [hmv]
      exact ⟨_, _, rfl, rfl, rfl⟩
    · rw [if_neg hcm] at hwf ⊢
      by_cases hoi : m.msg_type = kObjectInfoRequest
      · rw [if_pos hoi] at hwf ⊢
        cases ho : getField m.content kOname with
        | none => rw [ho] at hwf; simp [isStrO] at hwf
        | some v =>
          cases v with
          | str s =>
            rw [object_info_request_wf k m s ho]
            exact ⟨_, _, rfl, rfl, rfl⟩
          | bool b => rw [ho] at hwf; simp [isStrO] at hwf
          | num n => rw [ho] at hwf; simp [isStrO] at hwf
          | pynone => rw [ho] at hwf; simp [isStrO] at hwf
          | vdict d => rw [ho] at hwf; simp [isStrO] at hwf
      · rw [if_neg hoi] at hwf ⊢
        by_cases hpr : m.msg_type = kPromptRequest
        · rw [if_pos hpr]
          exact ⟨_, _, rfl, rfl, rfl⟩
        · rw [if_neg hpr] at hwf ⊢
          by_cases hhr : m.msg_type = kHistoryRequest
          · rw [if_pos hhr] at hwf ⊢
            obtain ⟨ha, hraw⟩ := Bool.and_eq_true_iff.1 hwf
            obtain ⟨hout, hidx⟩ := Bool.and_eq_true_iff.1 ha
            obtain ⟨ov, ho⟩ := Option.isSome_iff_exists.1 hout
            obtain ⟨iv, hi⟩ := Option.isSome_iff_exists.1 hidx
            obtain ⟨rv, hr⟩ := Option.isSome_iff_exists.1 hraw
            rw [history_request_wf k m ov iv rv ho hi hr]
            exact ⟨_, _, rfl, rfl, rfl⟩
          · rw [if_neg hhr] at hwf
            exact absurd hwf (by simp)



theorem dispatchN_nil (fuel : Nat) (k : Kernel) (h : k.inbound = []) :
    Kernel.dispatchN fuel k = Except.ok k := by
  cases fuel <;> simp [Kernel.dispatchN, h]

theorem abortList_proj (l : List Msg) (s : Session) (acc : List Msg) :
    List.map projR (abortList l s acc).2
      = List.map projR acc ++ List.map abortProj l := by
  induction l generalizing s acc with
  | nil => simp [abortList]
  | cons m rest ih =>
    rw [abortList, ih]
    simp [projR, abortProj, Session.msg, getField]

/-- C2: every Command Channel request method enqueues exactly one request
envelope on the outbound FIFO, schedules writable-interest (touching the
iostate only through the scheduled callback), and returns the msg id of
that envelope; the kernel handler for the request sends exactly one reply
whose parent is that id. -/
theorem claim_c2_request_reply_correlation (ch : XReqSocketChannel) (mth : ReqMethod)
    (k : Kernel) (hk : k.inbound = []) :
    ∃ req : Msg,
      (ch.sendRequest mth).2.command_queue = ch.command_queue ++ [req]
    ∧ (ch.sendRequest mth).1 = req.msg_id
    ∧ (ch.sendRequest mth).2.loop.scheduled
        = ch.loop.scheduled ++ [IOReq.addState POLLOUT]
    ∧ (ch.sendRequest mth).2.loop.iostate = ch.loop.iostate
    ∧ ∃ k2 rep, Kernel.handleMsg k req = Except.ok k2
        ∧ k2.reply_out = k.reply_out ++ [rep]
        ∧ rep.parent = some ((ch.sendRequest mth).1) := by
  cases mth with
  | execute code silent =>
    refine ⟨_, rfl, rfl, rfl, rfl, ?_⟩
    exact handleMsg_wf k _ hk (by
      simp [wellFormedB, Session.msg, getField, isNumO, isStrO, kExecuteRequest,
        kCompleteRequest, kObjectInfoRequest, kPromptRequest, kHistoryRequest, kCode,
        kSilent, kText, kLine, kBlock, kCursorPos, kOname, kIndex, kRaw, kOutput])
  | complete text line cursor_pos block =>
    refine ⟨_, rfl, rfl, rfl, rfl, ?_⟩
    exact handleMsg_wf k _ hk (by
      simp [wellFormedB, Session.msg, getField, isNumO, isStrO, kExecuteRequest,
        kCompleteRequest, kObjectInfoRequest, kPromptRequest, kHistoryRequest, kCode,
        kSilent, kText, kLine, kBlock, kCursorPos, kOname, kIndex, kRaw, kOutput])
  | object_info oname =>
    refine ⟨_, rfl, rfl, rfl, rfl, ?_⟩
    exact handleMsg_wf k _ hk (by
      simp [wellFormedB, Session.msg, getField, isNumO, isStrO, kExecuteRequest,
        kCompleteRequest, kObjectInfoRequest, kPromptRequest, kHistoryRequest, kCode,
        kSilent, kText, kLine, kBlock, kCursorPos, kOname, kIndex, kRaw, kOutput])
  | history index raw output =>
    refine ⟨_, rfl, rfl, rfl, rfl, ?_⟩
    exact handleMsg_wf k _ hk (by
      simp [wellFormedB, Session.msg, getField, isNumO, isStrO, kExecuteRequest,
        kCompleteRequest, kObjectInfoRequest, kPromptRequest, kHistoryRequest, kCode,
        kSilent, kText, kLine, kBlock, kCursorPos, kOname, kIndex, kRaw, kOutput])
  | prompt =>
    refine ⟨_, rfl, rfl, rfl, rfl, ?_⟩
    exact handleMsg_wf k _ hk (by
      simp [wellFormedB, Session.msg, getField, isNumO, isStrO, kExecuteRequest,
        kCompleteRequest, kObjectInfoRequest, kPromptRequest, kHistoryRequest, kCode,
        kSilent, kText, kLine, kBlock, kCursorPos, kOname, kIndex, kRaw, kOutput])

/-- C2 witness: a prompt request against an idle kernel. -/
theorem claim_c2_witness :
    c2kernel.inbound = []
  ∧ ∃ req : Msg,
      (c2chan.sendRequest ReqMethod.prompt).2.command_queue
        = c2chan.command_queue ++ [req]
    ∧ (c2chan.sendRequest ReqMethod.prompt).1 = req.msg_id
    ∧ (c2chan.sendRequest ReqMethod.prompt).2.loop.scheduled
        = c2chan.loop.scheduled ++ [IOReq.addState POLLOUT]
    ∧ (c2chan.sendRequest ReqMethod.prompt).2.loop.iostate = c2chan.loop.iostate
    ∧ ∃ k2 rep, Kernel.handleMsg c2kernel req = Except.ok k2
        ∧ k2.reply_out = c2kernel.reply_out ++ [rep]
        ∧ rep.parent = some ((c2chan.sendRequest ReqMethod.prompt).1) :=
  ⟨rfl, claim_c2_request_reply_correlation c2chan ReqMethod.prompt c2kernel rfl⟩

/-- C1: when the first of a run of queued execute requests fails, the
dispatch loop sends an error-status execute_reply parented to it, then
aborts: every request queued behind it receives, in queue order, a reply
of type execute_reply with status aborted and parent that request, after
which the loop is back to normal with an empty queue. -/
theorem claim_c1_abort_queue_rejects_pending (k : Kernel) (r0 : Msg) (rest : List Msg)
    (c : Val) (ex : String × String × Val)
    (hin : k.inbound = r0 :: rest)
    (ht : r0.msg_type = kExecuteRequest)
    (hc : getField r0.content kCode = some c)
    (hrun : k.shell.runlines c = some ex)
    (hrest : ∀ r ∈ rest, r.msg_type = kExecuteRequest) :
    ∃ k2, Kernel.start k = Except.ok k2
      ∧ k2.inbound = []
      ∧ List.map projR k2.reply_out
          = List.map projR k.reply_out
            ++ (some r0.msg_id, kExecuteReply, some (Val.str kError))
              :: List.map (fun r => (some r.msg_id, kExecuteReply, some (Val.str kAborted))) rest := by
  have hstep : Kernel.handleMsg { k with inbound := rest } r0
      = Except.ok (Kernel.execute_request { k with inbound := rest } r0) := by
    simp [Kernel.handleMsg, ht]
  obtain ⟨hinb, hrep⟩ :=
    execute_request_error { k with inbound := rest } r0 c ex hc hrun
  have hstart : Kernel.start k
      = Except.ok (Kernel.execute_request { k with inbound := rest } r0) := by
    unfold Kernel.start
    rw [hin]
    simp only [List.length_cons, Kernel.dispatchN]
    rw [hin]
    simp only [hstep]
    exact dispatchN_nil _ _ hinb
  refine ⟨_, hstart, hinb, ?_⟩
  rw [hrep]
  simp only [List.map_append, List.map_cons]
  rw [abortList_proj]
  simp only [List.map_nil, List.nil_append, projR, getField_updateShowTb_status]
  congr 1
  congr 1
  exact List.map_congr_left (fun r hr => by
    simp only [abortProj, hrest r hr, Prod.mk.injEq]
    exact ⟨trivial, by decide, trivial⟩)



/-- C1 witness: three execute requests, the first failing on a shell
whose every run fails. -/
theorem claim_c1_witness :
    c1kernel.inbound = [c1r0, c1r1, c1r2]
  ∧ c1r0.msg_type = kExecuteRequest
  ∧ getField c1r0.content kCode = some (Val.str sCode)
  ∧ c1kernel.shell.runlines (Val.str sCode) = some (sEmpty, sEmpty, Val.pynone)
  ∧ ∃ k2, Kernel.start c1kernel = Except.ok k2
      ∧ k2.inbound = []
      ∧ List.map projR k2.reply_out
          = List.map projR c1kernel.reply_out
            ++ (some c1r0.msg_id, kExecuteReply, some (Val.str kError))
              :: List.map (fun r => (some r.msg_id, kExecuteReply, some (Val.str kAborted)))
                   [c1r1, c1r2] :=
  ⟨rfl, rfl, rfl, rfl,
   claim_c1_abort_queue_rejects_pending c1kernel c1r0 [c1r1, c1r2] (Val.str sCode)
     (sEmpty, sEmpty, Val.pynone) rfl rfl rfl rfl (by decide)⟩

/-- C4 counterexample: a history_request missing its output field is not
locally recovered: the KeyError escapes the handler and terminates the
dispatch loop, so the well-formed prompt_request queued behind it is
never answered, against the claim that the loop logs the offending
request and continues with the next one. -/
theorem claim_c4_counterexample :
    Kernel.start c4kernel = Except.error (PyErr.keyError kOutput) := by
  rfl

/-- A complete_request with no text field raises KeyError whatever the
cursor_pos field holds: an integer cursor reaches the unguarded read of
the text field (line 301), anything else takes the fallback
len(c[text]) (line 300), which reads it too. -/
theorem complete_request_missing_text (k : Kernel) (m : Msg)
    (htext : getField m.content kText = Option.none) :
    Kernel.complete_request k m = Except.error (PyErr.keyError kText) := by
  unfold Kernel.complete_request Kernel.py_complete tryCursorPos
  cases hcp : getField m.content kCursorPos with
  | none => simp [htext]
  | some v => cases v <;> simp [htext]

/-- An object_info_request with no oname field raises KeyError at the
unguarded read of line 217. -/
theorem object_info_request_missing_oname (k : Kernel) (m : Msg)
    (h : getField m.content kOname = Option.none) :
    Kernel.object_info_request k m = Except.error (PyErr.keyError kOname) := by
  simp [Kernel.object_info_request, h]

/-- C4 corrected: only execute_request locally recovers a request missing
a required content field (dropping it with no reply and letting the loop
continue); for complete_request, object_info_request and history_request
the missing field raises, and the uncaught exception terminates the
dispatch loop; every well-formed request of a registered type receives
exactly one reply, parent-linked to it. -/
theorem claim_c4_amended_malformed (k : Kernel) (m : Msg) (rest : List Msg) :
    (m.msg_type = kExecuteRequest → getField m.content kCode = Option.none →
       Kernel.handleMsg k m = Except.ok k)
  ∧ (k.inbound = m :: rest → m.msg_type = kHistoryRequest →
       getField m.content kOutput = Option.none →
       Kernel.start k = Except.error (PyErr.keyError kOutput))
  ∧ (k.inbound = m :: rest → m.msg_type = kCompleteRequest →
       getField m.content kText = Option.none →
       Kernel.start k = Except.error (PyErr.keyError kText))
  ∧ (k.inbound = m :: rest → m.msg_type = kObjectInfoRequest →
       getField m.content kOname = Option.none →
       Kernel.start k = Except.error (PyErr.keyError kOname))
  ∧ (k.inbound = [] → wellFormedB m = true →
       ∃ k2 rep, Kernel.handleMsg k m = Except.ok k2
         ∧ k2.reply_out = k.reply_out ++ [rep]
         ∧ rep.parent = some m.msg_id) := by
  refine ⟨?_, ?_, ?_, ?_, fun hk hwf => handleMsg_wf k m hk hwf⟩
  · intro ht hc
    simp [Kernel.handleMsg, ht, Kernel.execute_request, hc]
  · intro hin ht hout
    unfold Kernel.start
    rw [hin]
    simp only [List.length_cons, Kernel.dispatchN]
    rw [hin]
    simp [Kernel.handleMsg, ht, Kernel.history_request, hout,
      kHistoryRequest, kExecuteRequest, kCompleteRequest, kObjectInfoRequest, kPromptRequest]
  · intro hin ht htext
    unfold Kernel.start
    rw [hin]
    simp only [List.length_cons, Kernel.dispatchN]
    rw [hin]
    simp [Kernel.handleMsg, ht, complete_request_missing_text _ _ htext,
      kCompleteRequest, kExecuteRequest]
  · intro hin ht honame
    unfold Kernel.start
    rw [hin]
    simp only [List.length_cons, Kernel.dispatchN]
    rw [hin]
    simp [Kernel.handleMsg, ht, object_info_request_missing_oname _ _ honame,
      kObjectInfoRequest, kExecuteRequest, kCompleteRequest]

/-- C4 witness: a malformed execute_request is dropped with the state
unchanged; malformed history, complete and object_info requests each
kill the loop with the corresponding KeyError; the well-formed
prompt_request gets exactly one parent-linked reply. -/
theorem claim_c4_witness :
    Kernel.handleMsg c4kernelEmpty c4execBad = Except.ok c4kernelEmpty
  ∧ Kernel.start c4kernel = Except.error (PyErr.keyError kOutput)
  ∧ Kernel.start c4kernelCompl = Except.error (PyErr.keyError kText)
  ∧ Kernel.start c4kernelOi = Except.error (PyErr.keyError kOname)
  ∧ ∃ k2 rep, Kernel.handleMsg c4kernelEmpty c4prompt = Except.ok k2
      ∧ k2.reply_out = c4kernelEmpty.reply_out ++ [rep]
      ∧ rep.parent = some c4prompt.msg_id :=
  ⟨(claim_c4_amended_malformed c4kernelEmpty c4execBad []).1 rfl rfl,
   (claim_c4_amended_malformed c4kernel c4hist [c4prompt]).2.1 rfl rfl rfl,
   (claim_c4_amended_malformed c4kernelCompl c4complBad [c4prompt]).2.2.1 rfl rfl rfl,
   (claim_c4_amended_malformed c4kernelOi c4oiBad [c4prompt]).2.2.2.1 rfl rfl rfl,
   (claim_c4_amended_malformed c4kernelEmpty c4prompt []).2.2.2.2 rfl (by decide)⟩

end IPyZmq
